import Mathlib

set_option maxHeartbeats 1000000

/-!
Verification of the job orchestration core of lumiply-server (src/main.py):
the in-memory job store, the seven-color sequential pipeline
(send_to_colab), callback ingestion (colab_callback), status lookup
(get_job_status) and intake (upload_image).

Modelling conventions:
- Python JSON values are modelled by JVal (null, strings and
  insertion-ordered dicts cover every value the core reads or writes;
  Python None and JSON null are identified, as dict.get does).
- Python dicts are insertion-ordered association lists; assignment to a
  key is dictSet (update in place, append when fresh), matching dict
  semantics.
- Each mutation of job_status[job_id] is an explicit FieldWrite event, so
  the terminal record and every intermediate record state of a run are
  both available to the theorems (applyWrites over a prefix of the write
  list gives the record after that many mutations).
- External I/O is abstracted into a per-step environment
  env : Nat -> StepOutcome giving the outcome of the HTTP round trip of
  each pipeline step; response bodies that are not valid JSON are the
  Except.error case of the body, carrying the message of the exception
  raised by response.json().
- COLAB_TIMEOUT (an environment variable, only used inside the timeout
  error message via int(COLAB_TIMEOUT)) is the tOut parameter.
- simulate_demo_processing is dead code (USE_DEMO is the constant False
  in upload_image), so it is not modelled.
-/

/-- Python/JSON values as the core manipulates them. -/
inductive JVal where
  | null
  | str (s : String)
  | dict (fields : List (String × JVal))

/-- Python truthiness for the values above (None, empty string and empty
dict are falsy). -/
def pyTruthy : JVal → Bool
  | .null => false
  | .str s => !(s == "")
  | .dict fields => !fields.isEmpty

/-- isinstance(v, dict). -/
def JVal.isDict : JVal → Bool
  | .dict _ => true
  | _ => false

/-- The fields of a dict value, [] for non-dicts (only used after an
isDict test). -/
def JVal.fieldsD : JVal → List (String × JVal)
  | .dict fields => fields
  | _ => []

/-- Presence-aware key lookup in a dict (first match, as Python dicts
cannot hold duplicate keys). -/
def dictFind (fields : List (String × JVal)) (k : String) : Option JVal :=
  List.lookup k fields

/-- d.get(k): the stored value, or None when the key is absent. -/
def pyGet (fields : List (String × JVal)) (k : String) : JVal :=
  (dictFind fields k).getD .null

/-- d.get(k, default). -/
def pyGetD (fields : List (String × JVal)) (k : String) (d : JVal) : JVal :=
  (dictFind fields k).getD d

/-- d[k] = v on an insertion-ordered dict: overwrite in place when the
key exists, append otherwise. -/
def dictSet (fields : List (String × JVal)) (k : String) (v : JVal) : List (String × JVal) :=
  if fields.any (fun p => p.1 == k) then
    fields.map (fun p => if p.1 == k then (k, v) else p)
  else fields ++ [(k, v)]

/-- The result structure stored under job_status[job_id]["result"] by the
pipeline and by the callback: always exactly the two keys images and
input_image_url (both may hold arbitrary payload values). -/
structure JobResult where
  images : JVal
  input_image_url : JVal

/-- One job record of the job_status store.  result and error model the
presence or absence of the corresponding dict keys (the intake record has
neither key). -/
structure JobRecord where
  status : JVal
  progress : Nat
  message : JVal
  result : Option JobResult
  error : Option JVal

/-- One mutation of a job record, in source order. -/
inductive FieldWrite where
  | wstatus (s : JVal)
  | wprogress (n : Nat)
  | wmessage (m : JVal)
  | wresult (r : JobResult)
  | werror (e : JVal)

def applyWrite (r : JobRecord) : FieldWrite → JobRecord
  | .wstatus s => { r with status := s }
  | .wprogress n => { r with progress := n }
  | .wmessage m => { r with message := m }
  | .wresult res => { r with result := some res }
  | .werror e => { r with error := some e }

def applyWrites (r : JobRecord) (ws : List FieldWrite) : JobRecord :=
  ws.foldl applyWrite r

/-- The record created by upload_image (main.py lines 113-117). -/
def initialRecord : JobRecord :=
  { status := .str "pending"
    progress := 0
    message := .str "작업이 대기 중입니다."
    result := none
    error := none }

/-- Outcome of one HTTP round trip to the Colab endpoint.  resp is a
received response (body is Except.error when response.json() raises, with
the message of that exception); the other constructors are the httpx
exception classes caught by send_to_colab, plus otherError for any other
exception raised while performing the request. -/
inductive StepOutcome where
  | resp (statusCode : Nat) (text : String) (body : Except String JVal)
  | timeout
  | connectError (msg : String)
  | requestError (msg : String)
  | otherError (msg : String)

/-- The exception that escapes the step loop, classified by the except
clauses of send_to_colab (most derived class first, as Python does). -/
inductive PipeExc where
  | timeout
  | connect (msg : String)
  | request (msg : String)
  | other (msg : String)

/-- Loop-local state of send_to_colab: the current job record (the
pipeline is the only writer of the record during a run), the
aggregated_images accumulator and the input_image_url local. -/
structure LoopState where
  record : JobRecord
  aggregated : List (String × JVal)
  inputUrl : JVal

inductive LoopExit where
  | finished
  | earlyReturn
  | raised (e : PipeExc)

/-- Result of processing one color step. -/
inductive StepAct where
  | ok (writes : List FieldWrite) (st : LoopState)
  | ret (writes : List FieldWrite)
  | exc (e : PipeExc)

/-- Output of the step loop: the record writes it performed, the colors it
actually sent requests for, the final loop state and how it exited. -/
structure RunOut where
  writes : List FieldWrite
  requests : List String
  state : LoopState
  exit : LoopExit

/-- color_sequence of main.py lines 263-271 (key, Korean label). -/
def colorSequence : List (String × String) :=
  [("white", "흰색"), ("red", "빨강"), ("orange", "주황"), ("yellow", "노랑"),
   ("green", "초록"), ("blue", "파랑"), ("purple", "보라")]

def colorKeys : List String := colorSequence.map Prod.fst

/-- Result-URL extraction of main.py lines 332-339: the per-color entry of
the images mapping when that mapping is a dict and the entry is truthy,
else the single image_url field. -/
def extractUrl (innerFields : List (String × JVal)) (ck : String) : JVal :=
  let imagesMap := pyGetD innerFields "images" (.dict [])
  let u1 : JVal := match imagesMap with
    | .dict fs => pyGet fs ck
    | _ => .null
  if pyTruthy u1 then u1 else pyGet innerFields "image_url"

/-- main.py lines 329-330: input_image_url is (re)captured while the local
is still None. -/
def captureStep (acc x : JVal) : JVal :=
  match acc with
  | .null => x
  | u => u

/-- main.py lines 353-354: prev_result = record.get("result") or {};
prev_images = dict(prev_result.get("images") or {}).  dict(v) on a truthy
non-dict raises (the interpreter-generated ValueError message is
abstracted). -/
def prevImagesOf (r : JobRecord) : Except String (List (String × JVal)) :=
  match r.result with
  | none => .ok []
  | some res =>
    if pyTruthy res.images then
      match res.images with
      | .dict fs => .ok fs
      | _ => .error "dict 인자 변환 오류"
    else .ok []

/-- The value prevImagesOf yields when it does not raise. -/
def prevFs (r : JobRecord) : List (String × JVal) :=
  match r.result with
  | none => []
  | some res =>
    match res.images with
    | .dict fs => fs
    | _ => []

/-- The record cannot make dict(prev_result.get("images") or ...) raise:
its images value, when a result is present and truthy, is a dict. -/
def resultImagesOk (r : JobRecord) : Bool :=
  match r.result with
  | none => true
  | some res => !pyTruthy res.images || res.images.isDict

/-- main.py lines 281-282: per-step message and base progress writes. -/
def baseWrites (idx : Nat) (cl : String) : List FieldWrite :=
  [.wmessage (.str (cl ++ " 색상 생성 중...")), .wprogress (10 + idx * 10)]

/-- Body of one iteration of the color loop of send_to_colab (main.py
lines 297-372), after the request has been sent: validation, capture,
aggregation and the partial-result writes, or an early return / escaping
exception. -/
def stepAttempt (idx : Nat) (ck cl : String) (out : StepOutcome) (st : LoopState) : StepAct :=
  match out with
  | .timeout => .exc .timeout
  | .connectError m => .exc (.connect m)
  | .requestError m => .exc (.request m)
  | .otherError m => .exc (.other m)
  | .resp code text body =>
    if code ≠ 200 then
      .ret [.wstatus (.str "failed"),
            .werror (.str ("Colab 처리 실패 (" ++ ck ++ "): " ++ toString code ++ " - " ++ text)),
            .wmessage (.str (cl ++ " 색상 처리 실패: " ++ toString code))]
    else
      match body with
      | .error m => .exc (.other m)
      | .ok raw =>
        let inner : JVal := match raw with
          | .dict rawFields => pyGet rawFields "result"
          | _ => .null
        if !pyTruthy inner || !inner.isDict then
          .ret [.wstatus (.str "failed"),
                .werror (.str ("Colab 응답 형식 오류 (" ++ ck ++ "): result 필드가 없습니다.")),
                .wmessage (.str (cl ++ " 색상 처리 중 응답 형식 오류"))]
        else
          let innerFields := inner.fieldsD
          let inputUrl : JVal := captureStep st.inputUrl (pyGet innerFields "input_image_url")
          let url : JVal := extractUrl innerFields ck
          if !pyTruthy url then
            .ret [.wstatus (.str "failed"),
                  .werror (.str ("Colab 응답에 " ++ ck ++ " 색상 결과 URL 이 없습니다.")),
                  .wmessage (.str (cl ++ " 색상 결과 URL 없음"))]
          else
            match prevImagesOf st.record with
            | .error m => .exc (.other m)
            | .ok prevImages =>
              let ws : List FieldWrite :=
                [.wresult ⟨.dict (dictSet prevImages ck url), inputUrl⟩,
                 .wprogress (10 + (idx + 1) * 10),
                 .wmessage (.str (cl ++ " 색상 생성 완료 (" ++ toString (10 + (idx + 1) * 10) ++ "%)"))]
              .ok ws ⟨applyWrites st.record ws, dictSet st.aggregated ck url, inputUrl⟩

/-- The for-loop of send_to_colab (main.py lines 278-372): strictly
sequential steps, stopping at the first early return or exception. -/
def stepRun : List (String × String) → Nat → LoopState → (Nat → StepOutcome) → RunOut
  | [], _, st, _ => ⟨[], [], st, .finished⟩
  | (ck, cl) :: rest, idx, st, env =>
    let bw := baseWrites idx cl
    let st1 : LoopState := { st with record := applyWrites st.record bw }
    match stepAttempt idx ck cl (env idx) st1 with
    | .ok ws st2 =>
      let r := stepRun rest (idx + 1) st2 env
      ⟨bw ++ ws ++ r.writes, ck :: r.requests, r.state, r.exit⟩
    | .ret ws => ⟨bw ++ ws, [ck], st1, .earlyReturn⟩
    | .exc e => ⟨bw, [ck], st1, .raised e⟩

/-- main.py lines 243-245. -/
def initWrites : List FieldWrite :=
  [.wstatus (.str "processing"),
   .wmessage (.str "이미지를 Colab으로 전송 중..."),
   .wprogress 0]

/-- main.py lines 374-382: terminal writes after all colors succeeded. -/
def completedWrites (st : LoopState) : List FieldWrite :=
  [.wstatus (.str "completed"),
   .wprogress 100,
   .wmessage (.str "모든 색상 이미지 생성이 완료되었습니다."),
   .wresult ⟨.dict st.aggregated, st.inputUrl⟩]

/-- main.py lines 384-407: the except clauses of send_to_colab. -/
def failWrites (tOut : Nat) : PipeExc → List FieldWrite
  | .timeout =>
    [.wstatus (.str "failed"),
     .werror (.str ("Colab 서버 응답 시간 초과 (" ++ toString tOut ++ "초)")),
     .wmessage (.str "처리 시간이 초과되었습니다.")]
  | .connect m =>
    [.wstatus (.str "failed"),
     .werror (.str ("Colab 서버 연결 실패: " ++ m)),
     .wmessage (.str "Colab 서버에 연결할 수 없습니다. URL을 확인하세요.")]
  | .request m =>
    [.wstatus (.str "failed"),
     .werror (.str ("Colab 서버 요청 오류: " ++ m)),
     .wmessage (.str "Colab 서버 요청 중 오류가 발생했습니다.")]
  | .other m =>
    [.wstatus (.str "failed"),
     .werror (.str m),
     .wmessage (.str ("처리 중 오류가 발생했습니다: " ++ m))]

/-- send_to_colab (main.py lines 223-407) as the sequence of record writes
it performs on the given starting record and the colors it sends requests
for.  The task never throws: every outcome ends in record writes. -/
def send_to_colab (tOut : Nat) (rec : JobRecord) (env : Nat → StepOutcome) :
    List FieldWrite × List String :=
  let r := stepRun colorSequence 0 ⟨applyWrites rec initWrites, [], .null⟩ env
  match r.exit with
  | .finished => (initWrites ++ r.writes ++ completedWrites r.state, r.requests)
  | .earlyReturn => (initWrites ++ r.writes, r.requests)
  | .raised e => (initWrites ++ r.writes ++ failWrites tOut e, r.requests)

/-- The process-wide job_status store. -/
abbrev Store := String → Option JobRecord

def emptyStore : Store := fun _ => none

def storeSet (s : Store) (k : String) (v : JobRecord) : Store :=
  fun q => if q = k then some v else s q

/-- The store effect of upload_image (main.py lines 78-138): create the
pending record under the fresh job id (file persistence and the
fire-and-forget scheduling of send_to_colab are external effects). -/
def upload_image (store : Store) (jobId : String) : Store :=
  storeSet store jobId initialRecord

/-- Reply of GET /api/status/(job_id). -/
inductive StatusReply where
  | notFound (errBody : String)
  | found (rec : JobRecord)

/-- get_job_status (main.py lines 484-508). -/
def get_job_status (store : Store) (jobId : String) : StatusReply :=
  match store jobId with
  | none => .notFound "작업을 찾을 수 없습니다."
  | some r => .found r

/-- Reply of POST /api/callback/(job_id): 404, the 500 produced by the
except clause (raw_result.get on a truthy non-dict result raises
AttributeError before any record mutation; the interpreter message is
abstracted), or success. -/
inductive CallbackReply where
  | notFound
  | serverError (msg : String)
  | success

/-- The record update performed by colab_callback for an existing job
(main.py lines 520-539), or the exception message when the payload result
field is a truthy non-dict. -/
def callbackMerge (rec : JobRecord) (payload : List (String × JVal)) :
    Except String JobRecord :=
  let statusValue := pyGetD payload "status" (.str "completed")
  let message : JVal :=
    if pyTruthy (pyGet payload "message") then pyGet payload "message"
    else .str "이미지 생성이 완료되었습니다."
  let rawResult : JVal :=
    if pyTruthy (pyGet payload "result") then pyGet payload "result" else .dict []
  match rawResult with
  | .dict rfs =>
    let images := pyGetD rfs "images" (.dict [])
    let inputImageUrl := pyGet rfs "input_image_url"
    let rec1 : JobRecord :=
      { rec with status := statusValue, progress := 100, message := message,
                 result := some ⟨images, inputImageUrl⟩ }
    match dictFind payload "error" with
    | some e => .ok { rec1 with error := some e, status := .str "failed" }
    | none => .ok rec1
  | _ => .error "AttributeError: result 값에 get 속성이 없습니다."

/-- colab_callback (main.py lines 510-546). -/
def colab_callback (store : Store) (jobId : String) (payload : List (String × JVal)) :
    Store × CallbackReply :=
  match store jobId with
  | none => (store, .notFound)
  | some rec =>
    match callbackMerge rec payload with
    | .ok rec1 => (storeSet store jobId rec1, .success)
    | .error m => (store, .serverError m)

/-!
Observation helpers over a run, and specification-side descriptions of the
values a successful step yields.  stepInner, stepUrl, stepInput and stepOk
are read off the same source lines as stepAttempt; stepOk holds exactly
when the step takes the success branch.
-/

/-- The progress values assigned by a write list, in order. -/
def progressWrites (ws : List FieldWrite) : List Nat :=
  ws.filterMap fun w => match w with
    | .wprogress n => some n
    | _ => none

/-- The result payloads assigned by a write list, in order. -/
def resultWrites (ws : List FieldWrite) : List JobResult :=
  ws.filterMap fun w => match w with
    | .wresult r => some r
    | _ => none

/-- True when the write is not an error write. -/
def notErrorWrite : FieldWrite → Bool
  | .werror _ => false
  | _ => true

def errFree (ws : List FieldWrite) : Bool := ws.all notErrorWrite

/-- The write list of a full pipeline run from the intake record. -/
def runWrites (tOut : Nat) (env : Nat → StepOutcome) : List FieldWrite :=
  (send_to_colab tOut initialRecord env).1

/-- The colors the run sent requests for. -/
def runRequests (tOut : Nat) (env : Nat → StepOutcome) : List String :=
  (send_to_colab tOut initialRecord env).2

/-- The terminal record of a pipeline run from the intake record. -/
def runRecord (tOut : Nat) (env : Nat → StepOutcome) : JobRecord :=
  applyWrites initialRecord (runWrites tOut env)

/-- The result payloads a run writes, in order. -/
def runResults (tOut : Nat) (env : Nat → StepOutcome) : List JobResult :=
  resultWrites (runWrites tOut env)

/-- The validated result object of a step response (main.py lines
316-326): the dict under the result key of a JSON dict body. -/
def stepInner (out : StepOutcome) : List (String × JVal) :=
  match out with
  | .resp _ _ (.ok (.dict rawFields)) =>
    match pyGet rawFields "result" with
    | .dict innerFields => innerFields
    | _ => []
  | _ => []

/-- The URL a step stores for its color (main.py lines 332-339). -/
def stepUrl (out : StepOutcome) (ck : String) : JVal :=
  extractUrl (stepInner out) ck

/-- The input_image_url value offered by a step response. -/
def stepInput (out : StepOutcome) : JVal :=
  pyGet (stepInner out) "input_image_url"

/-- The step takes the success branch: HTTP 200, JSON dict body, truthy
dict result field, truthy extracted URL for the requested color. -/
def stepOk (out : StepOutcome) (ck : String) : Bool :=
  match out with
  | .resp code _ (.ok raw) =>
    code == 200 &&
      (match raw with
       | .dict rawFields =>
         (match pyGet rawFields "result" with
          | .dict innerFields =>
            pyTruthy (.dict innerFields) && pyTruthy (extractUrl innerFields ck)
          | _ => false)
       | _ => false)
  | _ => false

/-- All seven steps of a run take the success branch. -/
def allOk (env : Nat → StepOutcome) : Prop :=
  ∀ i, i < colorSequence.length →
    stepOk (env i) ((colorSequence.getD i ("", "")).1) = true

/-- Step k is the first step that does not take the success branch. -/
def firstBadAt (env : Nat → StepOutcome) (k : Nat) : Prop :=
  (∀ i, i < k → stepOk (env i) ((colorSequence.getD i ("", "")).1) = true) ∧
    stepOk (env k) ((colorSequence.getD k ("", "")).1) = false

/-- The input_image_url local after n steps of a run: re-read from each
step while still None (main.py lines 329-330). -/
def capturedInputN (env : Nat → StepOutcome) : Nat → JVal
  | 0 => .null
  | n + 1 => captureStep (capturedInputN env n) (stepInput (env n))

/-- The full aggregated images mapping of a successful run: each color key
bound to the URL its own step returned, in pipeline order. -/
def expectedImages (env : Nat → StepOutcome) : List (String × JVal) :=
  colorSequence.enum.map fun p => (p.2.1, stepUrl (env p.1) p.2.1)

/-- The success-branch writes of one step (identical to the ws list built
inside stepAttempt, expressed through the observation helpers). -/
def okStepWrites (idx : Nat) (ck cl : String) (out : StepOutcome) (st : LoopState) :
    List FieldWrite :=
  [.wresult ⟨.dict (dictSet (prevFs st.record) ck (stepUrl out ck)),
             captureStep st.inputUrl (stepInput out)⟩,
   .wprogress (10 + (idx + 1) * 10),
   .wmessage (.str (cl ++ " 색상 생성 완료 (" ++ toString (10 + (idx + 1) * 10) ++ "%)"))]

/-- Characterization of the loop when every remaining step succeeds; the
bridge lemma proves stepRun equals this under stepOk hypotheses. -/
def okRunSpec : List (String × String) → Nat → LoopState → (Nat → StepOutcome) → RunOut
  | [], _, st, _ => ⟨[], [], st, .finished⟩
  | (ck, cl) :: rest, idx, st, env =>
    let st1 : LoopState := { st with record := applyWrites st.record (baseWrites idx cl) }
    let ws := okStepWrites idx ck cl (env idx) st1
    let st2 : LoopState :=
      ⟨applyWrites st1.record ws, dictSet st1.aggregated ck (stepUrl (env idx) ck),
       captureStep st1.inputUrl (stepInput (env idx))⟩
    let r := okRunSpec rest (idx + 1) st2 env
    ⟨baseWrites idx cl ++ ws ++ r.writes, ck :: r.requests, r.state, .finished⟩

/-- The payload result field, when present and truthy, is a JSON object —
the payload shape of the callback interface; colab_callback answers 500
without touching the record otherwise. -/
def payloadResultObj (payload : List (String × JVal)) : Bool :=
  match pyGet payload "result" with
  | .dict _ => true
  | v => !pyTruthy v

/-- The result object colab_callback stores for a shape-respecting
payload. -/
def callbackResult (payload : List (String × JVal)) : JobResult :=
  let rawResult : JVal :=
    if pyTruthy (pyGet payload "result") then pyGet payload "result" else .dict []
  ⟨pyGetD rawResult.fieldsD "images" (.dict []), pyGet rawResult.fieldsD "input_image_url"⟩

/-- The message colab_callback stores. -/
def callbackMessage (payload : List (String × JVal)) : JVal :=
  if pyTruthy (pyGet payload "message") then pyGet payload "message"
  else .str "이미지 생성이 완료되었습니다."

/-!  Concrete environments and payloads used by witnesses and
counterexamples. -/

/-- A response body carrying every color URL and an input_image_url. -/
def sampleBody : JVal :=
  .dict [("result", .dict
    [("images", .dict (colorKeys.map fun c => (c, JVal.str ("https://colab.example/" ++ c ++ ".png")))),
     ("input_image_url", .str "https://colab.example/input.png")])]

/-- Every step succeeds. -/
def envAllOk : Nat → StepOutcome := fun _ => .resp 200 "ok" (.ok sampleBody)

/-- The first response has no input_image_url; later ones do. -/
def envLateInput : Nat → StepOutcome
  | 0 => .resp 200 "ok" (.ok (.dict [("result", .dict
      [("image_url", .str "https://colab.example/first.png")])]))
  | _ => .resp 200 "ok" (.ok (.dict [("result", .dict
      [("image_url", .str "https://colab.example/later.png"),
       ("input_image_url", .str "https://colab.example/late-input.png")])]))

/-- Steps 1-3 (white, red, orange) succeed, step 4 (yellow) gets a 500. -/
def envYellowFails : Nat → StepOutcome := fun i =>
  if i < 3 then .resp 200 "ok" (.ok sampleBody)
  else .resp 500 "Internal Server Error" (.ok .null)

/-- The very first step gets a 500. -/
def envFirstFails : Nat → StepOutcome := fun _ =>
  .resp 500 "boom" (.ok .null)

/-- A callback payload carrying both a status and an error. -/
def payloadStatusAndError : List (String × JVal) :=
  [("status", .str "processing"), ("error", .str "x")]

/-- An empty callback payload. -/
def payloadEmpty : List (String × JVal) := []

/-- A well-formed terminal callback payload. -/
def payloadFull : List (String × JVal) :=
  [("status", .str "completed"), ("message", .str "done"),
   ("result", .dict [("images", .dict [("white", .str "https://cb.example/w.png")]),
                     ("input_image_url", .str "https://cb.example/in.png")])]

/-- A second callback payload with a different result. -/
def payloadSecond : List (String × JVal) :=
  [("result", .dict [("images", .dict [("red", .str "https://cb.example/r.png")])])]

/-- The record colab_callback stores for an existing job and a payload
whose result field respects the interface shape (read off the same
source lines as callbackMerge). -/
def mergedRecord (rec : JobRecord) (payload : List (String × JVal)) : JobRecord :=
  let rec1 : JobRecord :=
    { rec with status := pyGetD payload "status" (.str "completed"), progress := 100,
               message := callbackMessage payload, result := some (callbackResult payload) }
  match dictFind payload "error" with
  | some e => { rec1 with error := some e, status := .str "failed" }
  | none => rec1

/-- The color keys present in a record's result images mapping (in
insertion order); [] when the record has no result. -/
def recImagesKeys (r : JobRecord) : List String :=
  match r.result with
  | none => []
  | some res => res.images.fieldsD.map Prod.fst

/-- A store holding only the intake record of job J1. -/
def storeJ1 : Store := upload_image emptyStore "J1"

/-- The store after intake of J1 followed by a pipeline run whose first
step received a 500 response. -/
def storeAfterFail : Store :=
  storeSet (upload_image emptyStore "J1") "J1" (runRecord 300 envFirstFails)

/-!  Basic record and write-list lemmas. -/

theorem applyWrites_append (r : JobRecord) (xs ys : List FieldWrite) :
    applyWrites r (xs ++ ys) = applyWrites (applyWrites r xs) ys := by
  simp [applyWrites, List.foldl_append]

theorem prevImagesOf_eq (r : JobRecord) (h : resultImagesOk r = true) :
    prevImagesOf r = .ok (prevFs r) := by
  unfold prevImagesOf prevFs
  unfold resultImagesOk at h
  cases hr : r.result with
  | none => rfl
  | some res =>
    rw [hr] at h
    obtain ⟨imgs, inp⟩ := res
    cases imgs with
    | null => simp [pyTruthy]
    | str s =>
      simp [JVal.isDict, pyTruthy] at h
      simp [pyTruthy, h]
    | dict fs =>
      cases ht : pyTruthy (.dict fs) with
      | true => simp [ht]
      | false =>
        have hfs : fs = [] := by
          simpa [pyTruthy] using ht
        subst hfs
        simp [pyTruthy]

theorem errFree_append (xs ys : List FieldWrite) :
    errFree (xs ++ ys) = (errFree xs && errFree ys) := by
  simp [errFree, List.all_append]

theorem errFree_take (ws : List FieldWrite) (n : Nat) (h : errFree ws = true) :
    errFree (ws.take n) = true := by
  rw [errFree, List.all_eq_true] at h ⊢
  intro x hx
  exact h x (List.mem_of_mem_take hx)

theorem applyWrites_errFree_error :
    ∀ (ws : List FieldWrite) (r : JobRecord), errFree ws = true →
      (applyWrites r ws).error = r.error := by
  intro ws
  induction ws with
  | nil => intro r _; rfl
  | cons w ws ih =>
    intro r h
    rw [errFree, List.all_cons, Bool.and_eq_true] at h
    obtain ⟨hw, hws⟩ := h
    cases w with
    | werror e => simp [notErrorWrite] at hw
    | wstatus s => simpa [applyWrites, applyWrite] using ih { r with status := s } hws
    | wprogress n => simpa [applyWrites, applyWrite] using ih { r with progress := n } hws
    | wmessage m => simpa [applyWrites, applyWrite] using ih { r with message := m } hws
    | wresult res => simpa [applyWrites, applyWrite] using ih { r with result := some res } hws

theorem lookup_take_mono (k : String) (v : JVal) :
    ∀ (l : List (String × JVal)) (m n : Nat), m ≤ n →
      List.lookup k (l.take m) = some v → List.lookup k (l.take n) = some v := by
  intro l
  induction l with
  | nil => intro m n _ h; simp at h
  | cons p t ih =>
    intro m n hmn h
    cases m with
    | zero => simp at h
    | succ m =>
      cases n with
      | zero => omega
      | succ n =>
        rw [List.take_succ_cons] at h ⊢
        rw [List.lookup] at h ⊢
        cases hb : (k == p.1) with
        | true => rw [hb] at h; simpa [hb] using h
        | false =>
          rw [hb] at h
          simp only [hb]
          exact ih m n (by omega) h

theorem all_or_firstFalse (n : Nat) (p : Nat → Bool) :
    (∀ i, i < n → p i = true) ∨
      ∃ k, k < n ∧ (∀ i, i < k → p i = true) ∧ p k = false := by
  induction n with
  | zero => left; intro i hi; exact absurd hi (Nat.not_lt_zero i)
  | succ n ih =>
    cases ih with
    | inl hall =>
      cases hp : p n with
      | true =>
        left
        intro i hi
        rcases Nat.lt_succ_iff_lt_or_eq.mp hi with h | h
        · exact hall i h
        · subst h; exact hp
      | false => right; exact ⟨n, Nat.lt_succ_self n, hall, hp⟩
    | inr hex =>
      right
      obtain ⟨k, hk, h1, h2⟩ := hex
      exact ⟨k, Nat.lt_succ_of_lt hk, h1, h2⟩

theorem capturedInputN_step (env : Nat → StepOutcome) (n : Nat)
    (h : capturedInputN env n ≠ .null) :
    capturedInputN env (n + 1) = capturedInputN env n := by
  rw [capturedInputN]
  cases hc : capturedInputN env n with
  | null => exact absurd hc h
  | str s => rfl
  | dict fs => rfl

theorem capturedInputN_mono (env : Nat → StepOutcome) (j k : Nat) (hjk : j ≤ k)
    (h : capturedInputN env j ≠ .null) :
    capturedInputN env k = capturedInputN env j := by
  obtain ⟨d, rfl⟩ : ∃ d, k = j + d := ⟨k - j, by omega⟩
  clear hjk
  induction d with
  | zero => rfl
  | succ d ihd =>
    have hd : capturedInputN env (j + d) = capturedInputN env j := ihd
    have hne : capturedInputN env (j + d) ≠ .null := by rw [hd]; exact h
    rw [show j + (d + 1) = (j + d) + 1 from rfl, capturedInputN_step env (j + d) hne, hd]

theorem callbackMerge_eq (rec : JobRecord) (payload : List (String × JVal))
    (h : payloadResultObj payload = true) :
    callbackMerge rec payload = .ok (mergedRecord rec payload) := by
  unfold callbackMerge mergedRecord callbackResult callbackMessage
  unfold payloadResultObj at h
  cases hres : pyGet payload "result" with
  | dict rfs =>
    cases ht : pyTruthy (.dict rfs) with
    | true =>
      simp only [ht, if_true, JVal.fieldsD]
      cases dictFind payload "error" <;> rfl
    | false =>
      simp only [ht, if_false, Bool.false_eq_true, JVal.fieldsD]
      cases dictFind payload "error" <;> rfl
  | null =>
    simp only [pyTruthy, if_false, Bool.false_eq_true, JVal.fieldsD]
    cases dictFind payload "error" <;> rfl
  | str s =>
    rw [hres] at h
    simp only [pyTruthy, Bool.not_not] at h
    cases dictFind payload "error" <;> simp [pyTruthy, h, JVal.fieldsD]

/-!  Characterization of one step: success branch and failure branches. -/

theorem stepAttempt_ok (idx : Nat) (ck cl : String) (out : StepOutcome) (st : LoopState)
    (h : stepOk out ck = true) (hr : resultImagesOk st.record = true) :
    stepAttempt idx ck cl out st =
      .ok (okStepWrites idx ck cl out st)
        ⟨applyWrites st.record (okStepWrites idx ck cl out st),
         dictSet st.aggregated ck (stepUrl out ck),
         captureStep st.inputUrl (stepInput out)⟩ := by
  cases out with
  | timeout => simp [stepOk] at h
  | connectError m => simp [stepOk] at h
  | requestError m => simp [stepOk] at h
  | otherError m => simp [stepOk] at h
  | resp code text body =>
    cases body with
    | error m => simp [stepOk] at h
    | ok raw =>
      cases raw with
      | null => simp [stepOk] at h
      | str s => simp [stepOk] at h
      | dict rawFields =>
        rw [stepOk] at h
        rw [Bool.and_eq_true] at h
        obtain ⟨h200, hrest⟩ := h
        have hcode : code = 200 := by simpa using h200
        subst hcode
        cases hres : pyGet rawFields "result" with
        | null => rw [hres] at hrest; simp at hrest
        | str s => rw [hres] at hrest; simp at hrest
        | dict innerFields =>
          rw [hres] at hrest
          rw [Bool.and_eq_true] at hrest
          obtain ⟨htr, hurl⟩ := hrest
          rw [stepAttempt]
          rw [if_neg (by omega)]
          simp only [hres, htr, hurl, JVal.isDict, JVal.fieldsD, Bool.not_true,
            Bool.false_or, Bool.or_false, if_false, Bool.false_eq_true]
          rw [prevImagesOf_eq st.record hr]
          simp only [okStepWrites, stepUrl, stepInput, stepInner, hres]

theorem stepAttempt_bad (idx : Nat) (ck cl : String) (out : StepOutcome) (st : LoopState)
    (h : stepOk out ck = false) :
    (∃ e m, stepAttempt idx ck cl out st =
        .ret [.wstatus (.str "failed"), .werror (.str e), .wmessage (.str m)]) ∨
      ∃ ex, stepAttempt idx ck cl out st = .exc ex := by
  cases out with
  | timeout => right; exact ⟨.timeout, rfl⟩
  | connectError m => right; exact ⟨.connect m, rfl⟩
  | requestError m => right; exact ⟨.request m, rfl⟩
  | otherError m => right; exact ⟨.other m, rfl⟩
  | resp code text body =>
    by_cases hc : code = 200
    · subst hc
      cases body with
      | error m =>
        right
        refine ⟨.other m, ?_⟩
        rw [stepAttempt, if_neg (by omega)]
      | ok raw =>
        cases raw with
        | null =>
          left
          exact ⟨"Colab 응답 형식 오류 (" ++ ck ++ "): result 필드가 없습니다.",
            cl ++ " 색상 처리 중 응답 형식 오류", rfl⟩
        | str s =>
          left
          exact ⟨"Colab 응답 형식 오류 (" ++ ck ++ "): result 필드가 없습니다.",
            cl ++ " 색상 처리 중 응답 형식 오류", rfl⟩
        | dict rawFields =>
          cases hres : pyGet rawFields "result" with
          | null =>
            left
            exact ⟨"Colab 응답 형식 오류 (" ++ ck ++ "): result 필드가 없습니다.",
              cl ++ " 색상 처리 중 응답 형식 오류",
              by rw [stepAttempt, if_neg (by omega)]; simp [hres, pyTruthy]⟩
          | str s =>
            left
            exact ⟨"Colab 응답 형식 오류 (" ++ ck ++ "): result 필드가 없습니다.",
              cl ++ " 색상 처리 중 응답 형식 오류",
              by rw [stepAttempt, if_neg (by omega)]; simp [hres, JVal.isDict, pyTruthy]⟩
          | dict innerFields =>
            cases htr : pyTruthy (.dict innerFields) with
            | false =>
              left
              exact ⟨"Colab 응답 형식 오류 (" ++ ck ++ "): result 필드가 없습니다.",
                cl ++ " 색상 처리 중 응답 형식 오류",
                by
                  rw [stepAttempt, if_neg (by omega)]
                  simp only [hres, htr, Bool.not_false, Bool.true_or, if_true]⟩
            | true =>
              cases hurl : pyTruthy (extractUrl innerFields ck) with
              | false =>
                left
                exact ⟨"Colab 응답에 " ++ ck ++ " 색상 결과 URL 이 없습니다.",
                  cl ++ " 색상 결과 URL 없음",
                  by
                    rw [stepAttempt, if_neg (by omega)]
                    simp only [hres, htr, JVal.isDict, JVal.fieldsD, Bool.not_true,
                      Bool.or_false, Bool.false_or, if_false, hurl, Bool.not_false,
                      if_true, Bool.false_eq_true]⟩
              | true =>
                rw [stepOk] at h
                simp [hres, htr, hurl] at h
    · left
      exact ⟨"Colab 처리 실패 (" ++ ck ++ "): " ++ toString code ++ " - " ++ text,
        cl ++ " 색상 처리 실패: " ++ toString code,
        by
          rw [stepAttempt.eq_def]
          dsimp only []
          rw [if_pos hc]⟩

theorem okRunSpec_exit (colors : List (String × String)) (idx : Nat) (st : LoopState)
    (env : Nat → StepOutcome) : (okRunSpec colors idx st env).exit = .finished := by
  cases colors with
  | nil => rfl
  | cons c rest => obtain ⟨ck, cl⟩ := c; rfl

theorem stepRun_eq_okRunSpec :
    ∀ (colors : List (String × String)) (idx : Nat) (st : LoopState) (env : Nat → StepOutcome),
      (∀ i, i < colors.length → stepOk (env (idx + i)) ((colors.getD i ("", "")).1) = true) →
      resultImagesOk st.record = true →
      stepRun colors idx st env = okRunSpec colors idx st env := by
  intro colors
  induction colors with
  | nil => intro idx st env _ _; rfl
  | cons c rest ih =>
    intro idx st env hok hst
    obtain ⟨ck, cl⟩ := c
    have h0 : stepOk (env idx) ck = true := by
      have h1 := hok 0 (by simp)
      simpa using h1
    have hok2 : ∀ i, i < rest.length → stepOk (env (idx + 1 + i)) ((rest.getD i ("", "")).1) = true := by
      intro i hi
      have h1 := hok (i + 1) (by simp only [List.length_cons]; omega)
      rw [show idx + (i + 1) = idx + 1 + i from by omega] at h1
      simpa [List.getD_cons_succ] using h1
    have hst1 : resultImagesOk
        (LoopState.mk (applyWrites st.record (baseWrites idx cl)) st.aggregated st.inputUrl).record = true := hst
    simp only [stepRun]
    rw [stepAttempt_ok idx ck cl (env idx)
      ⟨applyWrites st.record (baseWrites idx cl), st.aggregated, st.inputUrl⟩ h0 hst1]
    dsimp only []
    rw [ih (idx + 1) _ env hok2
      (by simp [resultImagesOk, applyWrites, applyWrite, okStepWrites, JVal.isDict, Bool.or_true])]
    simp only [okRunSpec]
    rw [okRunSpec_exit]

theorem stepRun_firstBad :
    ∀ (colors : List (String × String)) (k : Nat) (idx : Nat) (st : LoopState)
      (env : Nat → StepOutcome),
      k < colors.length →
      (∀ i, i < k → stepOk (env (idx + i)) ((colors.getD i ("", "")).1) = true) →
      stepOk (env (idx + k)) ((colors.getD k ("", "")).1) = false →
      resultImagesOk st.record = true →
      (∃ e m, stepRun colors idx st env =
          ⟨(okRunSpec (colors.take k) idx st env).writes ++
              baseWrites (idx + k) ((colors.getD k ("", "")).2) ++
              [.wstatus (.str "failed"), .werror (.str e), .wmessage (.str m)],
            (colors.take (k + 1)).map Prod.fst,
            { (okRunSpec (colors.take k) idx st env).state with
                record := applyWrites (okRunSpec (colors.take k) idx st env).state.record
                  (baseWrites (idx + k) ((colors.getD k ("", "")).2)) },
            .earlyReturn⟩) ∨
        (∃ ex, stepRun colors idx st env =
          ⟨(okRunSpec (colors.take k) idx st env).writes ++
              baseWrites (idx + k) ((colors.getD k ("", "")).2),
            (colors.take (k + 1)).map Prod.fst,
            { (okRunSpec (colors.take k) idx st env).state with
                record := applyWrites (okRunSpec (colors.take k) idx st env).state.record
                  (baseWrites (idx + k) ((colors.getD k ("", "")).2)) },
            .raised ex⟩) := by
  intro colors
  induction colors with
  | nil => intro k idx st env hk; exact absurd hk (Nat.not_lt_zero k)
  | cons c rest ih =>
    intro k idx st env hk hok hbad hst
    obtain ⟨ck, cl⟩ := c
    cases k with
    | zero =>
      have hbad0 : stepOk (env idx) ck = false := by simpa using hbad
      rcases stepAttempt_bad idx ck cl (env idx)
          ⟨applyWrites st.record (baseWrites idx cl), st.aggregated, st.inputUrl⟩ hbad0 with
        ⟨e, m, heq⟩ | ⟨ex, heq⟩
      · left
        refine ⟨e, m, ?_⟩
        simp only [stepRun]
        rw [heq]
        simp [okRunSpec]
      · right
        refine ⟨ex, ?_⟩
        simp only [stepRun]
        rw [heq]
        simp [okRunSpec]
    | succ k =>
      have h0 : stepOk (env idx) ck = true := by
        have h1 := hok 0 (by omega)
        simpa using h1
      have hst1 : resultImagesOk
          (LoopState.mk (applyWrites st.record (baseWrites idx cl)) st.aggregated st.inputUrl).record = true := hst
      have hok2 : ∀ i, i < k → stepOk (env (idx + 1 + i)) ((rest.getD i ("", "")).1) = true := by
        intro i hi
        have h1 := hok (i + 1) (by omega)
        rw [show idx + (i + 1) = idx + 1 + i from by omega] at h1
        simpa [List.getD_cons_succ] using h1
      have hbad2 : stepOk (env (idx + 1 + k)) ((rest.getD k ("", "")).1) = false := by
        have h1 := hbad
        rw [show idx + (k + 1) = idx + 1 + k from by omega] at h1
        simpa [List.getD_cons_succ] using h1
      have hk2 : k < rest.length := by
        simp only [List.length_cons] at hk
        omega
      simp only [stepRun]
      rw [stepAttempt_ok idx ck cl (env idx)
        ⟨applyWrites st.record (baseWrites idx cl), st.aggregated, st.inputUrl⟩ h0 hst1]
      dsimp only []
      rcases ih k (idx + 1)
          ⟨applyWrites (applyWrites st.record (baseWrites idx cl))
              (okStepWrites idx ck cl (env idx)
                ⟨applyWrites st.record (baseWrites idx cl), st.aggregated, st.inputUrl⟩),
            dictSet st.aggregated ck (stepUrl (env idx) ck),
            captureStep st.inputUrl (stepInput (env idx))⟩ env hk2 hok2 hbad2
          (by simp [resultImagesOk, applyWrites, applyWrite, okStepWrites, JVal.isDict, Bool.or_true]) with
        ⟨e, m, heq⟩ | ⟨ex, heq⟩
      · left
        refine ⟨e, m, ?_⟩
        rw [heq]
        simp only [List.take_succ_cons, okRunSpec, List.getD_cons_succ, List.map_cons,
          List.append_assoc]
        rw [show idx + 1 + k = idx + (k + 1) from by omega]
      · right
        refine ⟨ex, ?_⟩
        rw [heq]
        simp only [List.take_succ_cons, okRunSpec, List.getD_cons_succ, List.map_cons,
          List.append_assoc]
        rw [show idx + 1 + k = idx + (k + 1) from by omega]

/-!  Unfolding send_to_colab once the loop behaviour is known. -/

theorem send_exit_finished (tOut : Nat) (rec : JobRecord) (env : Nat → StepOutcome)
    (h : (stepRun colorSequence 0 ⟨applyWrites rec initWrites, [], .null⟩ env).exit = .finished) :
    send_to_colab tOut rec env =
      (initWrites ++ (stepRun colorSequence 0 ⟨applyWrites rec initWrites, [], .null⟩ env).writes ++
          completedWrites (stepRun colorSequence 0 ⟨applyWrites rec initWrites, [], .null⟩ env).state,
        (stepRun colorSequence 0 ⟨applyWrites rec initWrites, [], .null⟩ env).requests) := by
  unfold send_to_colab
  dsimp only []
  rw [h]

theorem send_exit_early (tOut : Nat) (rec : JobRecord) (env : Nat → StepOutcome)
    (h : (stepRun colorSequence 0 ⟨applyWrites rec initWrites, [], .null⟩ env).exit = .earlyReturn) :
    send_to_colab tOut rec env =
      (initWrites ++ (stepRun colorSequence 0 ⟨applyWrites rec initWrites, [], .null⟩ env).writes,
        (stepRun colorSequence 0 ⟨applyWrites rec initWrites, [], .null⟩ env).requests) := by
  unfold send_to_colab
  dsimp only []
  rw [h]

theorem send_exit_raised (tOut : Nat) (rec : JobRecord) (env : Nat → StepOutcome) (ex : PipeExc)
    (h : (stepRun colorSequence 0 ⟨applyWrites rec initWrites, [], .null⟩ env).exit = .raised ex) :
    send_to_colab tOut rec env =
      (initWrites ++ (stepRun colorSequence 0 ⟨applyWrites rec initWrites, [], .null⟩ env).writes ++
          failWrites tOut ex,
        (stepRun colorSequence 0 ⟨applyWrites rec initWrites, [], .null⟩ env).requests) := by
  unfold send_to_colab
  dsimp only []
  rw [h]

theorem okRunSpec_errFree :
    ∀ (colors : List (String × String)) (idx : Nat) (st : LoopState) (env : Nat → StepOutcome),
      errFree (okRunSpec colors idx st env).writes = true := by
  intro colors
  induction colors with
  | nil => intro idx st env; rfl
  | cons c rest ih =>
    intro idx st env
    obtain ⟨ck, cl⟩ := c
    simp only [okRunSpec]
    rw [errFree_append, errFree_append]
    rw [ih (idx + 1) _ env]
    simp [errFree, notErrorWrite, baseWrites, okStepWrites]

theorem allOk_or_firstBad (env : Nat → StepOutcome) :
    allOk env ∨ ∃ k, k < colorSequence.length ∧ firstBadAt env k := by
  rcases all_or_firstFalse colorSequence.length
      (fun i => stepOk (env i) ((colorSequence.getD i ("", "")).1)) with hall | ⟨k, hk, h1, h2⟩
  · left; exact hall
  · right; exact ⟨k, hk, h1, h2⟩

theorem runAllOk (env : Nat → StepOutcome) (h : allOk env) :
    stepRun colorSequence 0 ⟨applyWrites initialRecord initWrites, [], .null⟩ env =
      okRunSpec colorSequence 0 ⟨applyWrites initialRecord initWrites, [], .null⟩ env :=
  stepRun_eq_okRunSpec colorSequence 0 _ env
    (fun i hi => by rw [Nat.zero_add]; exact h i hi) rfl

theorem runWrites_allOk (tOut : Nat) (env : Nat → StepOutcome) (h : allOk env) :
    runWrites tOut env =
      initWrites ++
        (okRunSpec colorSequence 0 ⟨applyWrites initialRecord initWrites, [], .null⟩ env).writes ++
        completedWrites
          (okRunSpec colorSequence 0 ⟨applyWrites initialRecord initWrites, [], .null⟩ env).state ∧
    runRequests tOut env =
      (okRunSpec colorSequence 0 ⟨applyWrites initialRecord initWrites, [], .null⟩ env).requests := by
  have hb := runAllOk env h
  have hex : (stepRun colorSequence 0 ⟨applyWrites initialRecord initWrites, [], .null⟩ env).exit
      = .finished := by
    rw [hb]; exact okRunSpec_exit colorSequence 0 _ env
  have hs := send_exit_finished tOut initialRecord env hex
  constructor
  · unfold runWrites
    rw [hs, hb]
  · unfold runRequests
    rw [hs, hb]

theorem runWrites_firstBad (tOut : Nat) (env : Nat → StepOutcome) (k : Nat)
    (hk : k < colorSequence.length) (hfb : firstBadAt env k) :
    runRequests tOut env = (colorSequence.take (k + 1)).map Prod.fst ∧
    ((∃ e m, runWrites tOut env =
        initWrites ++
          ((okRunSpec (colorSequence.take k) 0
              ⟨applyWrites initialRecord initWrites, [], .null⟩ env).writes ++
            baseWrites (0 + k) ((colorSequence.getD k ("", "")).2) ++
            [.wstatus (.str "failed"), .werror (.str e), .wmessage (.str m)])) ∨
      (∃ ex, runWrites tOut env =
        initWrites ++
          ((okRunSpec (colorSequence.take k) 0
              ⟨applyWrites initialRecord initWrites, [], .null⟩ env).writes ++
            baseWrites (0 + k) ((colorSequence.getD k ("", "")).2)) ++
          failWrites tOut ex)) := by
  have hst : resultImagesOk
      (LoopState.mk (applyWrites initialRecord initWrites) [] .null).record = true := rfl
  rcases stepRun_firstBad colorSequence k 0 ⟨applyWrites initialRecord initWrites, [], .null⟩ env hk
      (fun i hi => by rw [Nat.zero_add]; exact hfb.1 i hi)
      (by rw [Nat.zero_add]; exact hfb.2) hst with ⟨e, m, heq⟩ | ⟨ex, heq⟩
  · have hex : (stepRun colorSequence 0 ⟨applyWrites initialRecord initWrites, [], .null⟩ env).exit
        = .earlyReturn := by rw [heq]
    have hs := send_exit_early tOut initialRecord env hex
    constructor
    · unfold runRequests
      rw [hs]
      rw [heq]
    · left
      refine ⟨e, m, ?_⟩
      unfold runWrites
      rw [hs]
      rw [heq]
  · have hex : (stepRun colorSequence 0 ⟨applyWrites initialRecord initWrites, [], .null⟩ env).exit
        = .raised ex := by rw [heq]
    have hs := send_exit_raised tOut initialRecord env ex hex
    constructor
    · unfold runRequests
      rw [hs]
      rw [heq]
    · right
      refine ⟨ex, ?_⟩
      unfold runWrites
      rw [hs]
      rw [heq]

theorem runWrites_shape (tOut : Nat) (env : Nat → StepOutcome) :
    errFree (runWrites tOut env) = true ∨
      ∃ p e m, errFree p = true ∧
        runWrites tOut env =
          p ++ [.wstatus (.str "failed"), .werror (.str e), .wmessage (.str m)] := by
  rcases allOk_or_firstBad env with hall | ⟨k, hk, hfb⟩
  · left
    obtain ⟨hw, _⟩ := runWrites_allOk tOut env hall
    rw [hw, errFree_append, errFree_append]
    rw [okRunSpec_errFree]
    simp [errFree, notErrorWrite, initWrites, completedWrites]
  · rcases (runWrites_firstBad tOut env k hk hfb).2 with ⟨e, m, hw⟩ | ⟨ex, hw⟩
    · refine Or.inr ⟨initWrites ++
        ((okRunSpec (colorSequence.take k) 0
            ⟨applyWrites initialRecord initWrites, [], .null⟩ env).writes ++
          baseWrites (0 + k) ((colorSequence.getD k ("", "")).2)), e, m, ?_, ?_⟩
      · rw [errFree_append, errFree_append]
        rw [okRunSpec_errFree]
        simp [errFree, notErrorWrite, initWrites, baseWrites]
      · rw [hw]
        simp [List.append_assoc]
    · cases ex with
      | timeout =>
        refine Or.inr ⟨initWrites ++
          ((okRunSpec (colorSequence.take k) 0
              ⟨applyWrites initialRecord initWrites, [], .null⟩ env).writes ++
            baseWrites (0 + k) ((colorSequence.getD k ("", "")).2)),
          "Colab 서버 응답 시간 초과 (" ++ toString tOut ++ "초)", "처리 시간이 초과되었습니다.", ?_, ?_⟩
        · rw [errFree_append, errFree_append]
          rw [okRunSpec_errFree]
          simp [errFree, notErrorWrite, initWrites, baseWrites]
        · rw [hw]; rfl
      | connect cm =>
        refine Or.inr ⟨initWrites ++
          ((okRunSpec (colorSequence.take k) 0
              ⟨applyWrites initialRecord initWrites, [], .null⟩ env).writes ++
            baseWrites (0 + k) ((colorSequence.getD k ("", "")).2)),
          "Colab 서버 연결 실패: " ++ cm, "Colab 서버에 연결할 수 없습니다. URL을 확인하세요.", ?_, ?_⟩
        · rw [errFree_append, errFree_append]
          rw [okRunSpec_errFree]
          simp [errFree, notErrorWrite, initWrites, baseWrites]
        · rw [hw]; rfl
      | request rm =>
        refine Or.inr ⟨initWrites ++
          ((okRunSpec (colorSequence.take k) 0
              ⟨applyWrites initialRecord initWrites, [], .null⟩ env).writes ++
            baseWrites (0 + k) ((colorSequence.getD k ("", "")).2)),
          "Colab 서버 요청 오류: " ++ rm, "Colab 서버 요청 중 오류가 발생했습니다.", ?_, ?_⟩
        · rw [errFree_append, errFree_append]
          rw [okRunSpec_errFree]
          simp [errFree, notErrorWrite, initWrites, baseWrites]
        · rw [hw]; rfl
      | other om =>
        refine Or.inr ⟨initWrites ++
          ((okRunSpec (colorSequence.take k) 0
              ⟨applyWrites initialRecord initWrites, [], .null⟩ env).writes ++
            baseWrites (0 + k) ((colorSequence.getD k ("", "")).2)),
          om, "처리 중 오류가 발생했습니다: " ++ om, ?_, ?_⟩
        · rw [errFree_append, errFree_append]
          rw [okRunSpec_errFree]
          simp [errFree, notErrorWrite, initWrites, baseWrites]
        · rw [hw]; rfl

theorem run_error_invariant (tOut : Nat) (env : Nat → StepOutcome) (n : Nat)
    (herr : (applyWrites initialRecord ((runWrites tOut env).take n)).error ≠ none) :
    (applyWrites initialRecord ((runWrites tOut env).take n)).status = .str "failed" := by
  rcases runWrites_shape tOut env with hfree | ⟨p, e, m, hp, hw⟩
  · exfalso
    apply herr
    rw [applyWrites_errFree_error _ _ (errFree_take _ n hfree)]
    rfl
  · rw [hw] at herr ⊢
    rw [List.take_append_eq_append_take] at herr ⊢
    rw [applyWrites_append] at herr ⊢
    have hRe : (applyWrites initialRecord (p.take n)).error = none := by
      rw [applyWrites_errFree_error _ _ (errFree_take _ n hp)]
      rfl
    generalize hnm : n - p.length = d at herr ⊢
    rcases d with _ | _ | _ | q
    · exact absurd hRe herr
    · exact absurd hRe herr
    · rfl
    · simp [List.take_nil, applyWrites, applyWrite]

/-- Claim C1: when all 7 pipeline steps succeed, the terminal job record
has status completed, progress 100, result.images holding exactly the 7
color keys each mapped to the URL its own step returned, and
input_image_url set from the captured value of the run. -/
theorem c1_success_final_record (tOut : Nat) (env : Nat → StepOutcome) (h : allOk env) :
    (runRecord tOut env).status = .str "completed" ∧
    (runRecord tOut env).progress = 100 ∧
    (runRecord tOut env).result = some ⟨.dict (expectedImages env), capturedInputN env 7⟩ ∧
    (expectedImages env).map Prod.fst = colorKeys := by
  obtain ⟨hw, _⟩ := runWrites_allOk tOut env h
  unfold runRecord
  rw [hw]
  exact ⟨rfl, rfl, rfl, rfl⟩

theorem c1_success_final_record_witness :
    (runRecord 300 envAllOk).status = .str "completed" ∧
    (runRecord 300 envAllOk).progress = 100 ∧
    (runRecord 300 envAllOk).result =
      some ⟨.dict (expectedImages envAllOk), capturedInputN envAllOk 7⟩ ∧
    (expectedImages envAllOk).map Prod.fst = colorKeys :=
  c1_success_final_record 300 envAllOk (by unfold allOk; decide)

/-- Claim C3 counterexample: on a fully successful run the progress write
sequence is 0,10,20,20,...,70,70,80,100 — the value 90 is never written,
so the claimed sequence 0,10,...,90,100 is not what the code produces. -/
theorem c3_progress_counterexample :
    progressWrites (runWrites 300 envAllOk) =
      [0, 10, 20, 20, 30, 30, 40, 40, 50, 50, 60, 60, 70, 70, 80, 100] ∧
    90 ∉ progressWrites (runWrites 300 envAllOk) ∧
    progressWrites (runWrites 300 envAllOk) ≠
      [0, 10, 20, 30, 40, 50, 60, 70, 80, 90, 100] ∧
    (runRecord 300 envAllOk).status = .str "completed" :=
  ⟨by decide, by decide, by decide, rfl⟩

/-- Claim C3 amended: during a successful run the progress writes are the
sequence, pairwise non-decreasing, 0,10,20,20,30,30,...,70,70,80,100 (the schedule
10 + 10 x idx before step idx and 10 + 10 x (idx+1) after it, topping at
80, then the completion write jumps to 100; 90 never occurs). -/
theorem c3_progress_amended (tOut : Nat) (env : Nat → StepOutcome) (h : allOk env) :
    progressWrites (runWrites tOut env) =
      [0, 10, 20, 20, 30, 30, 40, 40, 50, 50, 60, 60, 70, 70, 80, 100] ∧
    List.Pairwise (· ≤ ·) (progressWrites (runWrites tOut env)) ∧
    90 ∉ progressWrites (runWrites tOut env) ∧
    (runRecord tOut env).status = .str "completed" := by
  obtain ⟨hw, _⟩ := runWrites_allOk tOut env h
  unfold runRecord
  rw [hw]
  refine ⟨rfl, ?_, ?_, rfl⟩
  · rw [show progressWrites (initWrites ++
        (okRunSpec colorSequence 0 ⟨applyWrites initialRecord initWrites, [], .null⟩ env).writes ++
        completedWrites (okRunSpec colorSequence 0
          ⟨applyWrites initialRecord initWrites, [], .null⟩ env).state) =
        [0, 10, 20, 20, 30, 30, 40, 40, 50, 50, 60, 60, 70, 70, 80, 100] from rfl]
    decide
  · rw [show progressWrites (initWrites ++
        (okRunSpec colorSequence 0 ⟨applyWrites initialRecord initWrites, [], .null⟩ env).writes ++
        completedWrites (okRunSpec colorSequence 0
          ⟨applyWrites initialRecord initWrites, [], .null⟩ env).state) =
        [0, 10, 20, 20, 30, 30, 40, 40, 50, 50, 60, 60, 70, 70, 80, 100] from rfl]
    decide

theorem c3_progress_amended_witness :
    progressWrites (runWrites 300 envAllOk) =
      [0, 10, 20, 20, 30, 30, 40, 40, 50, 50, 60, 60, 70, 70, 80, 100] ∧
    List.Pairwise (· ≤ ·) (progressWrites (runWrites 300 envAllOk)) ∧
    90 ∉ progressWrites (runWrites 300 envAllOk) ∧
    (runRecord 300 envAllOk).status = .str "completed" :=
  c3_progress_amended 300 envAllOk (by unfold allOk; decide)

/-- Claim C7 counterexample: the first step succeeds but its response has
no input_image_url, and the terminal record ends up with the
input_image_url offered by a later step — later steps do change it. -/
theorem c7_input_capture_counterexample :
    stepOk (envLateInput 0) "white" = true ∧
    stepInput (envLateInput 0) = .null ∧
    Option.map JobResult.input_image_url (runRecord 300 envLateInput).result =
      some (.str "https://colab.example/late-input.png") :=
  ⟨by decide, rfl, rfl⟩

/-- Claim C7 amended: input_image_url is captured from the first response
whose input_image_url value is non-null (re-read while still null); once
non-null it never changes, and the captured value is what every result
write of the run carries, including the final completion write. -/
theorem c7_input_capture_amended (tOut : Nat) (env : Nat → StepOutcome) (h : allOk env) :
    (runResults tOut env).map JobResult.input_image_url =
      ((List.range 7).map fun i => capturedInputN env (i + 1)) ++ [capturedInputN env 7] ∧
    (∀ j k, j ≤ k → capturedInputN env j ≠ .null →
      capturedInputN env k = capturedInputN env j) ∧
    Option.map JobResult.input_image_url (runRecord tOut env).result =
      some (capturedInputN env 7) := by
  obtain ⟨hw, _⟩ := runWrites_allOk tOut env h
  refine ⟨?_, fun j k hjk hne => capturedInputN_mono env j k hjk hne, ?_⟩
  · unfold runResults
    rw [hw]
    rfl
  · unfold runRecord
    rw [hw]
    rfl

theorem c7_input_capture_amended_witness :
    (runResults 300 envAllOk).map JobResult.input_image_url =
      ((List.range 7).map fun i => capturedInputN envAllOk (i + 1)) ++
        [capturedInputN envAllOk 7] ∧
    capturedInputN envAllOk 7 = capturedInputN envAllOk 1 ∧
    Option.map JobResult.input_image_url (runRecord 300 envAllOk).result =
      some (capturedInputN envAllOk 7) :=
  ⟨(c7_input_capture_amended 300 envAllOk (by unfold allOk; decide)).1,
   (c7_input_capture_amended 300 envAllOk (by unfold allOk; decide)).2.1 1 7 (by omega)
     (fun hh => JVal.noConfusion hh),
   (c7_input_capture_amended 300 envAllOk (by unfold allOk; decide)).2.2⟩

theorem getD_map_range_result (n : Nat) (f : Nat → JobResult) (i : Nat) (hi : i < n)
    (d : JobResult) : ((List.range n).map f).getD i d = f i := by
  rw [List.getD_eq_getElem?_getD, List.getElem?_map, List.getElem?_range hi]
  rfl

/-- Claim C2: the first failing step immediately turns the record into
status failed with an error recorded, the pipeline stops (exactly the
first k+1 colors were requested, no retry), the pipeline task itself
never surfaces an error to a caller, and the only caller-visible errors
are the NotFound replies of status lookup and callback ingestion on an
unknown job id. -/
theorem c2_failure_handling (tOut : Nat) (env : Nat → StepOutcome) (k : Nat)
    (store : Store) (jobId : String) (payload : List (String × JVal))
    (hk : k < colorSequence.length) (hfb : firstBadAt env k)
    (hshape : payloadResultObj payload = true) :
    (runRecord tOut env).status = .str "failed" ∧
    (runRecord tOut env).error.isSome = true ∧
    runRequests tOut env = (colorSequence.take (k + 1)).map Prod.fst ∧
    ((colab_callback store jobId payload).2 = .notFound ↔ store jobId = none) ∧
    (get_job_status store jobId = .notFound "작업을 찾을 수 없습니다." ↔ store jobId = none) := by
  have hreq := (runWrites_firstBad tOut env k hk hfb).1
  have hrec : (runRecord tOut env).status = .str "failed" ∧
      (runRecord tOut env).error.isSome = true := by
    rcases (runWrites_firstBad tOut env k hk hfb).2 with ⟨e, m, hw⟩ | ⟨ex, hw⟩
    · unfold runRecord
      rw [hw, applyWrites_append, applyWrites_append, applyWrites_append]
      exact ⟨rfl, rfl⟩
    · unfold runRecord
      rw [hw, applyWrites_append, applyWrites_append]
      cases ex <;> exact ⟨rfl, rfl⟩
  refine ⟨hrec.1, hrec.2, hreq, ?_, ?_⟩
  · cases hs : store jobId with
    | none => simp [colab_callback, hs]
    | some rec => simp [colab_callback, hs, callbackMerge_eq rec payload hshape]
  · cases hs : store jobId with
    | none => simp [get_job_status, hs]
    | some rec => simp [get_job_status, hs]

theorem c2_failure_handling_witness :
    (runRecord 300 envYellowFails).status = .str "failed" ∧
    (runRecord 300 envYellowFails).error.isSome = true ∧
    runRequests 300 envYellowFails = (colorSequence.take 4).map Prod.fst ∧
    ((colab_callback storeJ1 "J2" payloadEmpty).2 = .notFound ↔ storeJ1 "J2" = none) ∧
    (get_job_status storeJ1 "J2" = .notFound "작업을 찾을 수 없습니다." ↔ storeJ1 "J2" = none) :=
  c2_failure_handling 300 envYellowFails 3 storeJ1 "J2" payloadEmpty (by decide)
    (by unfold firstBadAt; decide) (by decide)

/-- Claim C4: result.images is monotone over the whole run.  On an
all-success run the result writes are the 8-element chain of growing
prefixes of the full 7-color mapping (final overwrite included, losing
nothing); when the first failure is at step k the result writes are the
k growing prefixes, the terminal record is failed with an error and holds
exactly the first k color keys; every run is one of these two shapes; and
in every case a key-to-URL binding present in an earlier result write is
still present, unchanged, in every later one. -/
theorem c4_images_monotone (tOut : Nat) (env : Nat → StepOutcome) :
    (allOk env → runResults tOut env =
      (List.range 8).map fun i =>
        ⟨.dict ((expectedImages env).take (min (i + 1) 7)),
          capturedInputN env (min (i + 1) 7)⟩) ∧
    (∀ k, k < colorSequence.length → firstBadAt env k →
      runResults tOut env =
        ((List.range k).map fun i =>
          ⟨.dict ((expectedImages env).take (i + 1)), capturedInputN env (i + 1)⟩) ∧
      (runRecord tOut env).status = .str "failed" ∧
      (runRecord tOut env).error.isSome = true ∧
      recImagesKeys (runRecord tOut env) = colorKeys.take k) ∧
    (allOk env ∨ ∃ k, k < colorSequence.length ∧ firstBadAt env k) ∧
    (∀ i j, i ≤ j → j < (runResults tOut env).length → ∀ key v,
      dictFind ((runResults tOut env).getD i ⟨.dict [], .null⟩).images.fieldsD key = some v →
      dictFind ((runResults tOut env).getD j ⟨.dict [], .null⟩).images.fieldsD key = some v) := by
  have hA : allOk env → runResults tOut env =
      (List.range 8).map fun i =>
        ⟨.dict ((expectedImages env).take (min (i + 1) 7)),
          capturedInputN env (min (i + 1) 7)⟩ := by
    intro h
    obtain ⟨hw, _⟩ := runWrites_allOk tOut env h
    unfold runResults
    rw [hw]
    rfl
  have hB : ∀ k, k < colorSequence.length → firstBadAt env k →
      runResults tOut env =
        ((List.range k).map fun i =>
          ⟨.dict ((expectedImages env).take (i + 1)), capturedInputN env (i + 1)⟩) ∧
      (runRecord tOut env).status = .str "failed" ∧
      (runRecord tOut env).error.isSome = true ∧
      recImagesKeys (runRecord tOut env) = colorKeys.take k := by
    intro k hk hfb
    have hk7 : k < 7 := hk
    rcases (runWrites_firstBad tOut env k hk hfb).2 with ⟨e, m, hw⟩ | ⟨ex, hw⟩
    · interval_cases k <;>
        (unfold runResults runRecord; rw [hw]; exact ⟨rfl, rfl, rfl, rfl⟩)
    · interval_cases k <;>
        (unfold runResults runRecord; rw [hw]; cases ex <;> exact ⟨rfl, rfl, rfl, rfl⟩)
  refine ⟨hA, hB, allOk_or_firstBad env, ?_⟩
  rcases allOk_or_firstBad env with hall | ⟨k, hk, hfb⟩
  · intro i j hij hj key v hfound
    rw [hA hall] at hfound hj ⊢
    rw [List.length_map, List.length_range] at hj
    have hi : i < 8 := by omega
    rw [getD_map_range_result 8 _ i hi] at hfound
    rw [getD_map_range_result 8 _ j hj]
    simp only [JVal.fieldsD] at hfound ⊢
    unfold dictFind at hfound ⊢
    exact lookup_take_mono key v (expectedImages env) (min (i + 1) 7) (min (j + 1) 7)
      (min_le_min (by omega) (le_refl 7)) hfound
  · intro i j hij hj key v hfound
    obtain ⟨hres, _, _, _⟩ := hB k hk hfb
    rw [hres] at hfound hj ⊢
    rw [List.length_map, List.length_range] at hj
    have hi : i < k := by omega
    rw [getD_map_range_result k _ i hi] at hfound
    rw [getD_map_range_result k _ j hj]
    simp only [JVal.fieldsD] at hfound ⊢
    unfold dictFind at hfound ⊢
    exact lookup_take_mono key v (expectedImages env) (i + 1) (j + 1) (by omega) hfound

theorem c4_images_monotone_witness :
    (runResults 300 envYellowFails =
      ((List.range 3).map fun i =>
        ⟨.dict ((expectedImages envYellowFails).take (i + 1)),
          capturedInputN envYellowFails (i + 1)⟩) ∧
    (runRecord 300 envYellowFails).status = .str "failed" ∧
    (runRecord 300 envYellowFails).error.isSome = true ∧
    recImagesKeys (runRecord 300 envYellowFails) = colorKeys.take 3) ∧
    dictFind ((runResults 300 envYellowFails).getD 2 ⟨.dict [], .null⟩).images.fieldsD
      "white" = some (.str "https://colab.example/white.png") :=
  ⟨(c4_images_monotone 300 envYellowFails).2.1 3 (by decide) (by unfold firstBadAt; decide),
   (c4_images_monotone 300 envYellowFails).2.2.2 0 2 (by omega) (by decide) "white"
     (.str "https://colab.example/white.png") rfl⟩

/-- Claim C5 counterexample: a payload carrying status "processing"
together with an error field leaves the record with status failed, not
the payload's status — ingestion does not always set the payload's
status. -/
theorem c5_callback_counterexample :
    pyGetD payloadStatusAndError "status" (.str "completed") = .str "processing" ∧
    Option.map JobRecord.status ((colab_callback storeJ1 "J1" payloadStatusAndError).1 "J1") =
      some (.str "failed") ∧
    (JVal.str "failed" = JVal.str "processing" → False) :=
  ⟨rfl, rfl, fun h => by injection h with h2; exact absurd h2 (by decide)⟩

/-- Claim C5 amended: for an existing job and payloads whose result field
respects the interface shape, ingestion always sets progress 100, the
payload message (with default) and the payload result wholesale; the
status becomes the payload status (default completed) whenever the
payload carries no error field (an error field forces failed instead);
and after two sequential callbacks the stored result is exactly the
second payload's result, with nothing merged from the first. -/
theorem c5_callback_amended (store : Store) (jobId : String) (rec : JobRecord)
    (p1 p2 : List (String × JVal))
    (hrec : store jobId = some rec)
    (h1 : payloadResultObj p1 = true) (h2 : payloadResultObj p2 = true) :
    (colab_callback store jobId p1).1 jobId = some (mergedRecord rec p1) ∧
    (mergedRecord rec p1).progress = 100 ∧
    (mergedRecord rec p1).message = callbackMessage p1 ∧
    (mergedRecord rec p1).result = some (callbackResult p1) ∧
    (dictFind p1 "error" = none →
      (mergedRecord rec p1).status = pyGetD p1 "status" (.str "completed")) ∧
    (colab_callback (colab_callback store jobId p1).1 jobId p2).1 jobId =
      some (mergedRecord (mergedRecord rec p1) p2) ∧
    (mergedRecord (mergedRecord rec p1) p2).result = some (callbackResult p2) := by
  have hc1 : colab_callback store jobId p1 =
      (storeSet store jobId (mergedRecord rec p1), .success) := by
    unfold colab_callback
    rw [hrec]
    dsimp only []
    rw [callbackMerge_eq rec p1 h1]
  have hs1 : (colab_callback store jobId p1).1 jobId = some (mergedRecord rec p1) := by
    rw [hc1]
    simp [storeSet]
  have hprog : (mergedRecord rec p1).progress = 100 := by
    unfold mergedRecord
    cases dictFind p1 "error" <;> rfl
  have hmsg : (mergedRecord rec p1).message = callbackMessage p1 := by
    unfold mergedRecord
    cases dictFind p1 "error" <;> rfl
  have hres : (mergedRecord rec p1).result = some (callbackResult p1) := by
    unfold mergedRecord
    cases dictFind p1 "error" <;> rfl
  have hstat : dictFind p1 "error" = none →
      (mergedRecord rec p1).status = pyGetD p1 "status" (.str "completed") := by
    intro hne
    unfold mergedRecord
    rw [hne]
  have hstore2 : (storeSet store jobId (mergedRecord rec p1)) jobId =
      some (mergedRecord rec p1) := by
    simp [storeSet]
  have hc2 : (colab_callback (colab_callback store jobId p1).1 jobId p2).1 jobId =
      some (mergedRecord (mergedRecord rec p1) p2) := by
    rw [hc1]
    dsimp only []
    unfold colab_callback
    rw [hstore2]
    dsimp only []
    rw [callbackMerge_eq (mergedRecord rec p1) p2 h2]
    dsimp only []
    simp [storeSet]
  refine ⟨hs1, hprog, hmsg, hres, hstat, hc2, ?_⟩
  unfold mergedRecord
  cases dictFind p2 "error" <;> rfl

theorem c5_callback_amended_witness :
    (colab_callback storeJ1 "J1" payloadFull).1 "J1" =
      some (mergedRecord initialRecord payloadFull) ∧
    (mergedRecord initialRecord payloadFull).progress = 100 ∧
    (mergedRecord initialRecord payloadFull).message = callbackMessage payloadFull ∧
    (mergedRecord initialRecord payloadFull).result = some (callbackResult payloadFull) ∧
    (dictFind payloadFull "error" = none →
      (mergedRecord initialRecord payloadFull).status =
        pyGetD payloadFull "status" (.str "completed")) ∧
    (colab_callback (colab_callback storeJ1 "J1" payloadFull).1 "J1" payloadSecond).1 "J1" =
      some (mergedRecord (mergedRecord initialRecord payloadFull) payloadSecond) ∧
    (mergedRecord (mergedRecord initialRecord payloadFull) payloadSecond).result =
      some (callbackResult payloadSecond) :=
  c5_callback_amended storeJ1 "J1" initialRecord payloadFull payloadSecond rfl rfl rfl

/-- Claim C6: a callback payload that carries an error field (and a
result field respecting the interface shape) always leaves an existing
job with status failed and the payload's error stored, whatever status
value the payload also supplies. -/
theorem c6_error_forces_failed (store : Store) (jobId : String) (rec : JobRecord)
    (payload : List (String × JVal)) (e : JVal)
    (hrec : store jobId = some rec) (hshape : payloadResultObj payload = true)
    (herr : dictFind payload "error" = some e) :
    (colab_callback store jobId payload).1 jobId = some (mergedRecord rec payload) ∧
    (mergedRecord rec payload).status = .str "failed" ∧
    (mergedRecord rec payload).error = some e := by
  have hc1 : colab_callback store jobId payload =
      (storeSet store jobId (mergedRecord rec payload), .success) := by
    unfold colab_callback
    rw [hrec]
    dsimp only []
    rw [callbackMerge_eq rec payload hshape]
  refine ⟨?_, ?_, ?_⟩
  · rw [hc1]
    simp [storeSet]
  · unfold mergedRecord
    rw [herr]
  · unfold mergedRecord
    rw [herr]

theorem c6_error_forces_failed_witness :
    (colab_callback storeJ1 "J1" payloadStatusAndError).1 "J1" =
      some (mergedRecord initialRecord payloadStatusAndError) ∧
    (mergedRecord initialRecord payloadStatusAndError).status = .str "failed" ∧
    (mergedRecord initialRecord payloadStatusAndError).error = some (.str "x") :=
  c6_error_forces_failed storeJ1 "J1" initialRecord payloadStatusAndError (.str "x")
    rfl rfl rfl

/-- Claim C9: an unknown job id yields NotFound from both the status
query and callback ingestion, with the store left untouched by the
callback; a known id yields its record from the status query. -/
theorem c9_not_found (store : Store) (jobId : String) (payload : List (String × JVal)) :
    (store jobId = none →
      get_job_status store jobId = .notFound "작업을 찾을 수 없습니다." ∧
      colab_callback store jobId payload = (store, .notFound)) ∧
    (∀ rec, store jobId = some rec → get_job_status store jobId = .found rec) := by
  constructor
  · intro h
    constructor
    · unfold get_job_status
      rw [h]
    · unfold colab_callback
      rw [h]
  · intro rec h
    unfold get_job_status
    rw [h]

theorem c9_not_found_witness :
    get_job_status storeJ1 "J2" = .notFound "작업을 찾을 수 없습니다." ∧
    colab_callback storeJ1 "J2" payloadEmpty = (storeJ1, .notFound) ∧
    get_job_status storeJ1 "J1" = .found initialRecord :=
  ⟨((c9_not_found storeJ1 "J2" payloadEmpty).1 rfl).1,
   ((c9_not_found storeJ1 "J2" payloadEmpty).1 rfl).2,
   (c9_not_found storeJ1 "J1" payloadEmpty).2 initialRecord rfl⟩

/-- Claim C10: for an existing job and a shape-respecting payload,
callback ingestion is never a no-op: it stores a record with progress
100 and the payload's message and result whatever the previous state
was (terminal states included); without an error field the status
becomes the payload status (default completed) while a previously
recorded error field is left in place. -/
theorem c10_callback_overwrites (store : Store) (jobId : String) (rec : JobRecord)
    (payload : List (String × JVal))
    (hrec : store jobId = some rec) (hshape : payloadResultObj payload = true) :
    (colab_callback store jobId payload).1 jobId = some (mergedRecord rec payload) ∧
    (colab_callback store jobId payload).2 = .success ∧
    (mergedRecord rec payload).progress = 100 ∧
    (mergedRecord rec payload).message = callbackMessage payload ∧
    (mergedRecord rec payload).result = some (callbackResult payload) ∧
    (dictFind payload "error" = none →
      (mergedRecord rec payload).status = pyGetD payload "status" (.str "completed") ∧
      (mergedRecord rec payload).error = rec.error) := by
  have hc1 : colab_callback store jobId payload =
      (storeSet store jobId (mergedRecord rec payload), .success) := by
    unfold colab_callback
    rw [hrec]
    dsimp only []
    rw [callbackMerge_eq rec payload hshape]
  refine ⟨?_, ?_, ?_, ?_, ?_, ?_⟩
  · rw [hc1]
    simp [storeSet]
  · rw [hc1]
  · unfold mergedRecord
    cases dictFind payload "error" <;> rfl
  · unfold mergedRecord
    cases dictFind payload "error" <;> rfl
  · unfold mergedRecord
    cases dictFind payload "error" <;> rfl
  · intro hne
    unfold mergedRecord
    rw [hne]
    exact ⟨rfl, rfl⟩

theorem c10_callback_overwrites_witness :
    (colab_callback storeAfterFail "J1" payloadEmpty).1 "J1" =
      some (mergedRecord (runRecord 300 envFirstFails) payloadEmpty) ∧
    (colab_callback storeAfterFail "J1" payloadEmpty).2 = .success ∧
    (mergedRecord (runRecord 300 envFirstFails) payloadEmpty).progress = 100 ∧
    (mergedRecord (runRecord 300 envFirstFails) payloadEmpty).message =
      callbackMessage payloadEmpty ∧
    (mergedRecord (runRecord 300 envFirstFails) payloadEmpty).result =
      some (callbackResult payloadEmpty) ∧
    (dictFind payloadEmpty "error" = none →
      (mergedRecord (runRecord 300 envFirstFails) payloadEmpty).status =
        pyGetD payloadEmpty "status" (.str "completed") ∧
      (mergedRecord (runRecord 300 envFirstFails) payloadEmpty).error =
        (runRecord 300 envFirstFails).error) :=
  c10_callback_overwrites storeAfterFail "J1" (runRecord 300 envFirstFails) payloadEmpty
    rfl rfl

/-- Claim C8 counterexample: intake, a pipeline run whose first step gets
a 500 (record becomes failed with an error), then a callback without an
error field: the resulting record still carries the old error while its
status is completed, so the invariant that error is present only when
status is failed does not hold for every reachable record. -/
theorem c8_error_only_when_failed_counterexample :
    (runRecord 300 envFirstFails).status = .str "failed" ∧
    Option.map JobRecord.status ((colab_callback storeAfterFail "J1" payloadEmpty).1 "J1") =
      some (.str "completed") ∧
    Option.map JobRecord.error ((colab_callback storeAfterFail "J1" payloadEmpty).1 "J1") =
      some (some (.str "Colab 처리 실패 (white): 500 - boom")) ∧
    (JVal.str "completed" = JVal.str "failed" → False) :=
  ⟨rfl, rfl, rfl, fun h => by injection h with h2; exact absurd h2 (by decide)⟩

/-- Claim C8 amended: the invariant holds for every record state produced
by intake followed by pipeline writes (after any prefix of the run's
writes, a present error forces status failed), and a callback that
carries an error field also re-establishes it; only a callback without
an error field on a previously failed record can leave a stale error
beside a non-failed status. -/
theorem c8_error_invariant_amended (tOut : Nat) (env : Nat → StepOutcome) (n : Nat)
    (rec : JobRecord) (payload : List (String × JVal)) (e : JVal) :
    ((applyWrites initialRecord ((runWrites tOut env).take n)).error ≠ none →
      (applyWrites initialRecord ((runWrites tOut env).take n)).status = .str "failed") ∧
    (dictFind payload "error" = some e → payloadResultObj payload = true →
      (mergedRecord rec payload).status = .str "failed" ∧
      (mergedRecord rec payload).error = some e ∧
      callbackMerge rec payload = .ok (mergedRecord rec payload)) := by
  constructor
  · exact run_error_invariant tOut env n
  · intro herr hshape
    refine ⟨?_, ?_, callbackMerge_eq rec payload hshape⟩
    · unfold mergedRecord
      rw [herr]
    · unfold mergedRecord
      rw [herr]

theorem c8_error_invariant_amended_witness :
    (applyWrites initialRecord ((runWrites 300 envFirstFails).take 8)).status =
      .str "failed" ∧
    (mergedRecord initialRecord payloadStatusAndError).status = .str "failed" ∧
    (mergedRecord initialRecord payloadStatusAndError).error = some (.str "x") ∧
    callbackMerge initialRecord payloadStatusAndError =
      .ok (mergedRecord initialRecord payloadStatusAndError) :=
  ⟨(c8_error_invariant_amended 300 envFirstFails 8 initialRecord payloadStatusAndError
      (.str "x")).1 (fun hh => Option.noConfusion hh),
   ((c8_error_invariant_amended 300 envFirstFails 8 initialRecord payloadStatusAndError
      (.str "x")).2 rfl rfl).1,
   ((c8_error_invariant_amended 300 envFirstFails 8 initialRecord payloadStatusAndError
      (.str "x")).2 rfl rfl).2.1,
   ((c8_error_invariant_amended 300 envFirstFails 8 initialRecord payloadStatusAndError
      (.str "x")).2 rfl rfl).2.2⟩
